import Mathlib

/-! # SOLIDserver resource reconciliation: DNS resource records and IPv6 aliases

A shallow embedding of `solidserver/resource_dns_rr.go` and
`solidserver/resource_ip6_alias.go`.

* A decoded response body (`[](map[string]interface{})`) is a list of records.
* `schema.ResourceData` is a structure holding the identifier and the string attributes
  of the resource's schema.
* A lifecycle operation returns the calls it made to its collaborators together with
  either the value handed back to the host and the final resource data, or a Go run-time
  panic.
* Calls to `log.Printf` and `tflog.Debug` only write to the log and are not modelled.
-/

namespace Solidserver

/-! ## Decoded JSON values -/

/-- Value stored in an `interface{}` by `json.Unmarshal`. -/
inductive JSON where
  | null
  | bool (b : Bool)
  | number (q : Rat)
  | str (s : String)
  | array (items : List JSON)
  | object (members : List (String × JSON))

/-- One element of `[](map[string]interface{})`; a `null` element is a nil map, which
reads like the empty one. -/
abbrev Record := List (String × JSON)

/-- Map index expression `m[key]`: the stored value, or `none` for the nil interface
that Go yields for a missing key. -/
def Record.index (m : Record) (key : String) : Option JSON :=
  m.lookup key

/-- Slice index expression `buf[0]`, evaluated only under `len(buf) > 0`. -/
def first (buf : List Record) : Record :=
  buf.headD []

/-- Two-valued type assertion `v, ok := x.(string)`: `some v` when `ok`. -/
def assertString : Option JSON → Option String
  | some (JSON.str s) => some s
  | _ => none

/-! ## `url.Values` -/

/-- Form parameters `url.Values`, a `map[string][]string`, kept in insertion order. -/
abbrev Values := List (String × List String)

/-- Method `Values.Add`: appends the value to the values already held by the key. -/
def Values.Add : Values → String → String → Values
  | [], key, value => [(key, [value])]
  | (k, vs) :: rest, key, value =>
    if k = key then (k, vs ++ [value]) :: rest else (k, vs) :: Values.Add rest key value

/-! ## `strings.ToUpper` -/

/-- Function `strings.ToUpper`: ASCII letters are mapped to upper case; the Unicode
upper-case mapping of the other runes is the argument `unicodeUpper`. -/
def ToUpper (unicodeUpper : Char → Char) (s : String) : String :=
  String.mk (s.data.map fun c => if c.val < 128 then c.toUpper else unicodeUpper c)

/-! ## Collaborators -/

/-- What `s.Request` returns: `http_resp` (`none` for a nil pointer, else its
`StatusCode`), the body as decoded by `json.Unmarshal` into `buf`, and the error. -/
structure Response where
  resp : Option Int
  buf : List Record
  err : Option String

/-- Collaborators reached through `meta`, whose code lies outside the two resource files
and which are therefore parameters: the transport and the two identifier resolvers, each
resolver returning its identifier or its error. -/
structure SOLIDserver where
  Request : String → String → Values → Response
  ipsiteidbyname : String → Except String String
  ip6addressidbyip6 : String → String → Except String String

/-- A call made to a collaborator. -/
inductive Call where
  | Request (method service : String) (parameters : Values)
  | ipsiteidbyname (name : String)
  | ip6addressidbyip6 (siteID address : String)
  deriving DecidableEq

/-- How a lifecycle operation ends: it returns to the host (`err = none` is a nil
error, or empty diagnostics) with the resource data as left by the operation, or it
panics. -/
inductive Outcome (σ : Type) where
  | returned (err : Option String) (d : σ)
  | panic (reason : String)
  deriving DecidableEq

/-- Calls made by an operation, in order, and how it ended. -/
structure Run (σ : Type) where
  calls : List Call
  outcome : Outcome σ

/-- End of an operation that makes no further call. -/
def Run.done {σ : Type} (outcome : Outcome σ) : Run σ :=
  { calls := [], outcome := outcome }

/-- Statement `http_resp, body, err := s.Request(method, service, &parameters)` followed
by `json.Unmarshal([]byte(body), &buf)`: the call is recorded and the rest of the
operation runs on the response. -/
def SOLIDserver.invokeRequest {σ : Type} (s : SOLIDserver) (method service : String)
    (parameters : Values) (k : Response → Run σ) : Run σ :=
  let rest := k (s.Request method service parameters)
  { rest with calls := Call.Request method service parameters :: rest.calls }

/-- Statement `siteID, err := ipsiteidbyname(name, meta)`: the call is recorded and the
rest of the operation runs on its result. -/
def SOLIDserver.invokeIpsiteidbyname {σ : Type} (s : SOLIDserver) (name : String)
    (k : Except String String → Run σ) : Run σ :=
  let rest := k (s.ipsiteidbyname name)
  { rest with calls := Call.ipsiteidbyname name :: rest.calls }

/-- Statement `addressID, err := ip6addressidbyip6(siteID, address, meta)`: the call is
recorded and the rest of the operation runs on its result. -/
def SOLIDserver.invokeIp6addressidbyip6 {σ : Type} (s : SOLIDserver)
    (siteID address : String) (k : Except String String → Run σ) : Run σ :=
  let rest := k (s.ip6addressidbyip6 siteID address)
  { rest with calls := Call.ip6addressidbyip6 siteID address :: rest.calls }

/-- Panic raised by `http_resp.StatusCode` on a nil `http_resp`. -/
def nilDereference : String := "invalid memory address or nil pointer dereference"

/-- Panic raised by a one-valued type assertion `x.(string)` on a value that is not a
string. -/
def notString : String := "interface conversion: interface is not string"

/-! ## DNS resource records -/

/-- Resource data of a DNS resource record: identifier and the attributes of the
schema. -/
structure DnsRR where
  id : String
  dnsserver : String
  name : String
  type : String
  value : String
  ttl : String
  deriving DecidableEq

/-- Attribute descriptor `schema.Schema`, reduced to the `ForceNew` flag. -/
structure Schema where
  ForceNew : Bool

/-- Schema table of `resourcednsrr`. -/
def resourcednsrr : List (String × Schema) :=
  [("dnsserver", ⟨true⟩), ("name", ⟨true⟩), ("type", ⟨true⟩), ("value", ⟨false⟩),
   ("ttl", ⟨false⟩)]

/-- Validation function of the `type` attribute: warnings and errors. The argument is
the value of a `TypeString` attribute, so `v.(string)` succeeds. -/
def resourcednsrrvalidatetype (up : Char → Char) (v : String) : List String × List String :=
  let u := ToUpper up v
  if u = "A" then ([], [])
  else if u = "AAAA" then ([], [])
  else if u = "CNAME" then ([], [])
  else ([], ["Unsupported RR type."])

/-- Selector `http_resp.StatusCode`, which panics on a nil `http_resp`. -/
def withStatus {σ : Type} (resp : Option Int) (k : Int → Outcome σ) : Outcome σ :=
  match resp with
  | some code => k code
  | none => Outcome.panic nilDereference

/-- One-valued type assertion `x.(string)`, which panics unless `x` holds a string. -/
def withString {σ : Type} (x : Option JSON) (k : String → Outcome σ) : Outcome σ :=
  match assertString x with
  | some v => k v
  | none => Outcome.panic notString

/-- Parameters built by `resourcednsrrCreate`. -/
def resourcednsrrCreateParameters (up : Char → Char) (d : DnsRR) : Values :=
  let parameters : Values := []
  let parameters := parameters.Add "dns_name" d.dnsserver
  let parameters := parameters.Add "rr_name" d.name
  let parameters := parameters.Add "rr_type" (ToUpper up d.type)
  let parameters := parameters.Add "value1" d.value
  let parameters := parameters.Add "rr_ttl" d.ttl
  parameters

/-- Create of a DNS resource record. The error returned by `s.Request` is discarded. -/
def resourcednsrrCreate (up : Char → Char) (d : DnsRR) (s : SOLIDserver) : Run DnsRR :=
  let parameters := resourcednsrrCreateParameters up d
  s.invokeRequest "post" "rest/dns_rr_add" parameters fun r =>
  let failure : Outcome DnsRR :=
    Outcome.returned (some ("SOLIDServer - Unable to create RR record " ++ d.name)) d
  Run.done <|
    if r.buf.length > 0 then
      match assertString ((first r.buf).index "ret_oid") with
      | some _ =>
        withStatus r.resp fun code =>
          if code = 201 then
            withString ((first r.buf).index "ret_oid") fun oid =>
              Outcome.returned none { d with id := oid }
          else failure
      | none => failure
    else failure

/-- Parameters built by `resourcednsrrUpdate`. -/
def resourcednsrrUpdateParameters (up : Char → Char) (d : DnsRR) : Values :=
  let parameters : Values := []
  let parameters := parameters.Add "rr_id" d.id
  let parameters := parameters.Add "dns_name" d.dnsserver
  let parameters := parameters.Add "rr_name" d.name
  let parameters := parameters.Add "rr_type" (ToUpper up d.type)
  let parameters := parameters.Add "value1" d.value
  let parameters := parameters.Add "rr_ttl" d.ttl
  parameters

/-- Schema attribute read by each `parameters.Add` of `resourcednsrrUpdate`, by
parameter name; `rr_id` is read from `d.Id()`, which is no attribute. -/
def resourcednsrrUpdateSource : List (String × String) :=
  [("dns_name", "dnsserver"), ("rr_name", "name"), ("rr_type", "type"),
   ("value1", "value"), ("rr_ttl", "ttl")]

/-- Whether the schema of `resourcednsrr` marks the attribute `ForceNew`. -/
def forceNew (field : String) : Bool :=
  match resourcednsrr.lookup field with
  | some schema => schema.ForceNew
  | none => false

/-- Update of a DNS resource record. The error returned by `s.Request` is discarded. -/
def resourcednsrrUpdate (up : Char → Char) (d : DnsRR) (s : SOLIDserver) : Run DnsRR :=
  let parameters := resourcednsrrUpdateParameters up d
  s.invokeRequest "put" "rest/dns_rr_add" parameters fun r =>
  let failure : Outcome DnsRR :=
    Outcome.returned (some ("SOLIDServer - Unable to update RR : " ++ d.name)) d
  Run.done <|
    if r.buf.length > 0 then
      match assertString ((first r.buf).index "ret_oid") with
      | some _ =>
        withStatus r.resp fun code =>
          if code = 200 then
            withString ((first r.buf).index "ret_oid") fun oid =>
              Outcome.returned none { d with id := oid }
          else failure
      | none => failure
    else failure

/-- Delete of a DNS resource record. The error returned by `s.Request` is discarded. -/
def resourcednsrrDelete (d : DnsRR) (s : SOLIDserver) : Run DnsRR :=
  let parameters : Values := []
  let parameters := parameters.Add "rr_id" d.id
  s.invokeRequest "delete" "rest/dns_rr_delete" parameters fun r =>
  Run.done <|
    -- `http_resp.StatusCode != 204` is evaluated; under it the `errmsg` of the first
    -- record, if any, is only logged
    withStatus r.resp fun _ =>
      Outcome.returned none { d with id := "" }

/-- Read of a DNS resource record. The error returned by `s.Request` is discarded. -/
def resourcednsrrRead (d : DnsRR) (s : SOLIDserver) : Run DnsRR :=
  let parameters : Values := []
  let parameters := parameters.Add "rr_id" d.id
  s.invokeRequest "get" "rest/dns_rr_info" parameters fun r =>
  Run.done <|
    if r.buf.length > 0 then
      withStatus r.resp fun code =>
        if code = 200 then
          withString ((first r.buf).index "dns_name") fun v =>
          let d := { d with dnsserver := v }
          withString ((first r.buf).index "rr_full_name") fun v =>
          let d := { d with name := v }
          withString ((first r.buf).index "rr_type") fun v =>
          let d := { d with type := v }
          withString ((first r.buf).index "value1") fun v =>
          let d := { d with value := v }
          withString ((first r.buf).index "ttl") fun v =>
          let d := { d with ttl := v }
          Outcome.returned none d
        else
          -- the `errmsg` of the first record, if any, is logged
          let d := { d with id := "" }
          Outcome.returned (some ("SOLIDServer - Unable to read RR : " ++ d.name)) d
    else
      Outcome.returned (some ("SOLIDServer - Unable to read RR : " ++ d.name)) d

/-! ## IPv6 aliases -/

/-- Resource data of an IPv6 alias: identifier and the attributes of the schema. -/
structure Ip6Alias where
  id : String
  space : String
  address : String
  name : String
  type : String
  deriving DecidableEq

/-- Single quote character used in the `WHERE` clause. -/
def quote : String := String.singleton (Char.ofNat 39)

/-- Create of an IPv6 alias. -/
def resourceip6aliasCreate (d : Ip6Alias) (s : SOLIDserver) : Run Ip6Alias :=
  s.invokeIpsiteidbyname d.space fun
  | Except.error err => Run.done (Outcome.returned (some err) d)
  | Except.ok siteID =>
    s.invokeIp6addressidbyip6 siteID d.address fun
    | Except.error err => Run.done (Outcome.returned (some err) d)
    | Except.ok addressID =>
      let parameters : Values := []
      let parameters := parameters.Add "ip6_id" addressID
      let parameters := parameters.Add "ip6_name" d.name
      let parameters := parameters.Add "ip6_name_type" d.type
      s.invokeRequest "post" "rest/ip6_alias_add" parameters fun r =>
      let failure : Outcome Ip6Alias :=
        let plain := "Unable to create IPv6 alias: " ++ d.name ++ " - " ++ d.type ++
          " associated to IPv6 address (OID): " ++ addressID
        if r.buf.length > 0 then
          match assertString ((first r.buf).index "errmsg") with
          | some errMsg => Outcome.returned (some (plain ++ " (" ++ errMsg ++ ")\n")) d
          | none => Outcome.returned (some (plain ++ "\n")) d
        else Outcome.returned (some (plain ++ "\n")) d
      Run.done <|
        match r.err with
        | none =>
          withStatus r.resp fun code =>
            if (code = 200 ∨ code = 201) ∧ r.buf.length > 0 then
              match assertString ((first r.buf).index "ret_oid") with
              | some oid => Outcome.returned none { d with id := oid }
              | none => failure
            else failure
        | some err => Outcome.returned (some err) d

/-- Delete of an IPv6 alias. -/
def resourceip6aliasDelete (d : Ip6Alias) (s : SOLIDserver) : Run Ip6Alias :=
  let parameters : Values := []
  let parameters := parameters.Add "ip6_name_id" d.id
  s.invokeRequest "delete" "rest/ip6_alias_delete" parameters fun r =>
  Run.done <|
    match r.err with
    | none =>
      withStatus r.resp fun code =>
        if code ≠ 200 ∧ code ≠ 204 then
          let plain := "Unable to delete IPv6 alias : " ++ d.name ++ " - " ++ d.type
          if r.buf.length > 0 then
            match assertString ((first r.buf).index "errmsg") with
            | some errMsg => Outcome.returned (some (plain ++ " (" ++ errMsg ++ ")\n")) d
            | none => Outcome.returned (some (plain ++ "\n")) d
          else Outcome.returned (some (plain ++ "\n")) d
        else Outcome.returned none { d with id := "" }
    | some err => Outcome.returned (some err) d

/-- Read of an IPv6 alias. -/
def resourceip6aliasRead (d : Ip6Alias) (s : SOLIDserver) : Run Ip6Alias :=
  s.invokeIpsiteidbyname d.space fun
  | Except.error err => Run.done (Outcome.returned (some err) d)
  | Except.ok siteID =>
    s.invokeIp6addressidbyip6 siteID d.address fun
    | Except.error err => Run.done (Outcome.returned (some err) d)
    | Except.ok addressID =>
      let parameters : Values := []
      let parameters := parameters.Add "ip6_id" addressID
      let parameters := parameters.Add "WHERE" ("ip6_name_id=" ++ quote ++ d.id ++ quote)
      s.invokeRequest "get" "rest/ip6_alias_list" parameters fun r =>
      Run.done <|
        match r.err with
        | none =>
          withStatus r.resp fun code =>
            if code = 200 ∧ r.buf.length > 0 then
              withString ((first r.buf).index "alias_name") fun v =>
              let d := { d with name := v }
              withString ((first r.buf).index "ip6_name_type") fun v =>
              let d := { d with type := v }
              Outcome.returned none d
            else
              -- the `errmsg` of the first record, or the identifier, is logged; the
              -- identifier is kept
              Outcome.returned (some ("Unable to find IPv6 alias: " ++ d.name ++ "\n")) d
        | some err => Outcome.returned (some err) d

/-! ## Fixtures -/

/-- Transport answering every request with the same response; both resolvers succeed. -/
def answering (r : Response) : SOLIDserver :=
  { Request := fun _ _ _ => r
    ipsiteidbyname := fun _ => Except.ok "7"
    ip6addressidbyip6 := fun _ _ => Except.ok "42" }

/-- DNS resource record of scenario A, not yet created. -/
def wwwRecord : DnsRR :=
  { id := "", dnsserver := "ns.example.com", name := "www.example.com", type := "a",
    value := "10.0.0.1", ttl := "3600" }

/-- IPv6 alias stored under identifier 123. -/
def wwwAlias : Ip6Alias :=
  { id := "123", space := "Local", address := "2001:db8::1", name := "www.example.com",
    type := "CNAME" }

/-- Collaborators whose space lookup finds no space. -/
def noSpace : SOLIDserver :=
  { Request := fun _ _ _ => ⟨some 201, [[("ret_oid", JSON.str "123")]], none⟩
    ipsiteidbyname := fun name => Except.error ("Unable to find IP space: " ++ name)
    ip6addressidbyip6 := fun _ _ => Except.ok "42" }

/-- Collaborators whose space lookup succeeds and whose address lookup finds nothing. -/
def noAddress : SOLIDserver :=
  { Request := fun _ _ _ => ⟨some 201, [[("ret_oid", JSON.str "123")]], none⟩
    ipsiteidbyname := fun _ => Except.ok "7"
    ip6addressidbyip6 := fun _ address =>
      Except.error ("Unable to find IPv6 address: " ++ address) }

/-! ## Evaluation lemmas -/

@[simp]
theorem done_calls {σ : Type} (o : Outcome σ) : (Run.done o).calls = [] := rfl

@[simp]
theorem done_outcome {σ : Type} (o : Outcome σ) : (Run.done o).outcome = o := rfl

@[simp]
theorem invokeRequest_calls {σ : Type} (s : SOLIDserver) (method service : String)
    (parameters : Values) (k : Response → Run σ) :
    (s.invokeRequest method service parameters k).calls =
      Call.Request method service parameters ::
        (k (s.Request method service parameters)).calls := rfl

@[simp]
theorem invokeRequest_outcome {σ : Type} (s : SOLIDserver) (method service : String)
    (parameters : Values) (k : Response → Run σ) :
    (s.invokeRequest method service parameters k).outcome =
      (k (s.Request method service parameters)).outcome := rfl

@[simp]
theorem invokeIpsiteidbyname_calls {σ : Type} (s : SOLIDserver) (name : String)
    (k : Except String String → Run σ) :
    (s.invokeIpsiteidbyname name k).calls =
      Call.ipsiteidbyname name :: (k (s.ipsiteidbyname name)).calls := rfl

@[simp]
theorem invokeIpsiteidbyname_outcome {σ : Type} (s : SOLIDserver) (name : String)
    (k : Except String String → Run σ) :
    (s.invokeIpsiteidbyname name k).outcome = (k (s.ipsiteidbyname name)).outcome := rfl

@[simp]
theorem invokeIp6addressidbyip6_calls {σ : Type} (s : SOLIDserver) (siteID address : String)
    (k : Except String String → Run σ) :
    (s.invokeIp6addressidbyip6 siteID address k).calls =
      Call.ip6addressidbyip6 siteID address ::
        (k (s.ip6addressidbyip6 siteID address)).calls := rfl

@[simp]
theorem invokeIp6addressidbyip6_outcome {σ : Type} (s : SOLIDserver)
    (siteID address : String) (k : Except String String → Run σ) :
    (s.invokeIp6addressidbyip6 siteID address k).outcome =
      (k (s.ip6addressidbyip6 siteID address)).outcome := rfl

@[simp]
theorem withStatus_some {σ : Type} (code : Int) (k : Int → Outcome σ) :
    withStatus (some code) k = k code := rfl

@[simp]
theorem withStatus_none {σ : Type} (k : Int → Outcome σ) :
    withStatus none k = Outcome.panic nilDereference := rfl

@[simp]
theorem withString_str {σ : Type} (v : String) (k : String → Outcome σ) :
    withString (some (JSON.str v)) k = k v := rfl

theorem withString_of_assert {σ : Type} {x : Option JSON} {v : String}
    (h : assertString x = some v) (k : String → Outcome σ) : withString x k = k v := by
  simp [withString, h]

theorem withString_of_assert_none {σ : Type} {x : Option JSON}
    (h : assertString x = none) (k : String → Outcome σ) :
    withString x k = Outcome.panic notString := by
  simp [withString, h]

theorem assertString_eq_some {x : Option JSON} {v : String} :
    assertString x = some v ↔ x = some (JSON.str v) := by
  cases x with
  | none => simp [assertString]
  | some j => cases j <;> simp [assertString]

@[simp]
theorem first_cons (m : Record) (rest : List Record) : first (m :: rest) = m := rfl

theorem resourcednsrrCreateParameters_eq (up : Char → Char) (d : DnsRR) :
    resourcednsrrCreateParameters up d =
      [("dns_name", [d.dnsserver]), ("rr_name", [d.name]), ("rr_type", [ToUpper up d.type]),
       ("value1", [d.value]), ("rr_ttl", [d.ttl])] := by
  simp [resourcednsrrCreateParameters, Values.Add]

theorem resourcednsrrUpdateParameters_eq (up : Char → Char) (d : DnsRR) :
    resourcednsrrUpdateParameters up d =
      [("rr_id", [d.id]), ("dns_name", [d.dnsserver]), ("rr_name", [d.name]),
       ("rr_type", [ToUpper up d.type]), ("value1", [d.value]), ("rr_ttl", [d.ttl])] := by
  simp [resourcednsrrUpdateParameters, Values.Add]

theorem ToUpper_a (up : Char → Char) : ToUpper up "a" = "A" := by
  rfl

theorem validatetype_accepts {up : Char → Char} {v : String}
    (h : (resourcednsrrvalidatetype up v).2 = []) :
    ToUpper up v = "A" ∨ ToUpper up v = "AAAA" ∨ ToUpper up v = "CNAME" := by
  unfold resourcednsrrvalidatetype at h
  by_cases hA : ToUpper up v = "A"
  · exact Or.inl hA
  · by_cases hB : ToUpper up v = "AAAA"
    · exact Or.inr (Or.inl hB)
    · by_cases hC : ToUpper up v = "CNAME"
      · exact Or.inr (Or.inr hC)
      · simp [hA, hB, hC] at h

/-! ## DNS resource record: parameters sent -/

/-- C10: `resourcednsrrCreate` sends one request, a `post` to `rest/dns_rr_add`, whose
parameters are exactly `dns_name`, `rr_name`, `rr_type`, `value1` and `rr_ttl`, holding
one value each: the server, the name, the upper-cased type, the value and the ttl. Type
`a` is sent as `A`, and a type accepted by `resourcednsrrvalidatetype` is sent as `A`,
`AAAA` or `CNAME`. -/
theorem create_parameters (up : Char → Char) (d : DnsRR) (s : SOLIDserver) :
    (resourcednsrrCreate up d s).calls =
        [Call.Request "post" "rest/dns_rr_add"
          [("dns_name", [d.dnsserver]), ("rr_name", [d.name]),
           ("rr_type", [ToUpper up d.type]), ("value1", [d.value]), ("rr_ttl", [d.ttl])]]
      ∧ ToUpper up "a" = "A"
      ∧ ((resourcednsrrvalidatetype up d.type).2 = [] →
          ToUpper up d.type = "A" ∨ ToUpper up d.type = "AAAA" ∨
            ToUpper up d.type = "CNAME") := by
  refine ⟨?_, ToUpper_a up, validatetype_accepts⟩
  simp [resourcednsrrCreate, resourcednsrrCreateParameters_eq]

/-- Scenario A for C10: the record of type `a` is accepted by the validation and its
type is sent as `A`. -/
theorem create_parameters_witness :
    (resourcednsrrvalidatetype id wwwRecord.type).2 = []
      ∧ (resourcednsrrCreate id wwwRecord (answering ⟨some 201, [], none⟩)).calls =
          [Call.Request "post" "rest/dns_rr_add"
            [("dns_name", ["ns.example.com"]), ("rr_name", ["www.example.com"]),
             ("rr_type", ["A"]), ("value1", ["10.0.0.1"]), ("rr_ttl", ["3600"])]]
      ∧ (ToUpper id wwwRecord.type = "A" ∨ ToUpper id wwwRecord.type = "AAAA" ∨
          ToUpper id wwwRecord.type = "CNAME") :=
  ⟨by decide,
   (create_parameters id wwwRecord (answering ⟨some 201, [], none⟩)).1,
   (create_parameters id wwwRecord (answering ⟨some 201, [], none⟩)).2.2 (by decide)⟩

/-- C4, as stated, fails: the request sent by `resourcednsrrUpdate` for the record
stored under `123` carries `dns_name`, `rr_name` and `rr_type`, which are read from the
`ForceNew` attributes `dnsserver`, `name` and `type`. -/
theorem update_sends_forcenew :
    (resourcednsrrUpdate id { wwwRecord with id := "123" }
        (answering ⟨some 200, [], none⟩)).calls =
        [Call.Request "put" "rest/dns_rr_add"
          [("rr_id", ["123"]), ("dns_name", ["ns.example.com"]),
           ("rr_name", ["www.example.com"]), ("rr_type", ["A"]),
           ("value1", ["10.0.0.1"]), ("rr_ttl", ["3600"])]]
      ∧ resourcednsrrUpdateSource.lookup "dns_name" = some "dnsserver"
      ∧ forceNew "dnsserver" = true
      ∧ resourcednsrrUpdateSource.lookup "rr_name" = some "name"
      ∧ forceNew "name" = true
      ∧ resourcednsrrUpdateSource.lookup "rr_type" = some "type"
      ∧ forceNew "type" = true := by
  decide

/-- C4, amended: `resourcednsrrUpdate` sends one request, a `put` to `rest/dns_rr_add`,
whose parameters are the identifier (`rr_id`) and all five attributes, one value each:
the mutable `value1` and `rr_ttl`, and also `dns_name`, `rr_name` and the upper-cased
`rr_type`, which are read from the attributes the schema marks `ForceNew`. -/
theorem update_parameters (up : Char → Char) (d : DnsRR) (s : SOLIDserver) :
    (resourcednsrrUpdate up d s).calls =
        [Call.Request "put" "rest/dns_rr_add"
          [("rr_id", [d.id]), ("dns_name", [d.dnsserver]), ("rr_name", [d.name]),
           ("rr_type", [ToUpper up d.type]), ("value1", [d.value]), ("rr_ttl", [d.ttl])]]
      ∧ resourcednsrrUpdateSource.map (fun p => (p.1, forceNew p.2)) =
          [("dns_name", true), ("rr_name", true), ("rr_type", true), ("value1", false),
           ("rr_ttl", false)] := by
  refine ⟨?_, by decide⟩
  simp [resourcednsrrUpdate, resourcednsrrUpdateParameters_eq]

/-! ## DNS resource record: create and update -/

theorem create_eval_oid (up : Char → Char) (d : DnsRR) (s : SOLIDserver) (status : Int)
    (m : Record) (rest : List Record) (err : Option String) (oid : String)
    (h : s.Request "post" "rest/dns_rr_add" (resourcednsrrCreateParameters up d) =
      ⟨some status, m :: rest, err⟩)
    (hm : m.index "ret_oid" = some (JSON.str oid)) :
    (resourcednsrrCreate up d s).outcome =
      if status = 201 then Outcome.returned none { d with id := oid }
      else Outcome.returned (some ("SOLIDServer - Unable to create RR record " ++ d.name)) d := by
  simp [resourcednsrrCreate, h, hm, assertString]

theorem create_eval_no_oid (up : Char → Char) (d : DnsRR) (s : SOLIDserver) (status : Int)
    (buf : List Record) (err : Option String)
    (h : s.Request "post" "rest/dns_rr_add" (resourcednsrrCreateParameters up d) =
      ⟨some status, buf, err⟩)
    (hm : ∀ oid, ¬ (buf ≠ [] ∧ (first buf).index "ret_oid" = some (JSON.str oid))) :
    (resourcednsrrCreate up d s).outcome =
      Outcome.returned (some ("SOLIDServer - Unable to create RR record " ++ d.name)) d := by
  cases buf with
  | nil => simp [resourcednsrrCreate, h]
  | cons m rest =>
    have hn : assertString (m.index "ret_oid") = none := by
      cases hx : assertString (m.index "ret_oid") with
      | none => rfl
      | some v => exact absurd ⟨by simp, assertString_eq_some.mp hx⟩ (hm v)
    simp [resourcednsrrCreate, h, hn]

/-- C3, as stated, fails: answered with status 201 and a first record whose `ret_oid` is
the empty string, `resourcednsrrCreate` returns success and stores the empty
identifier. -/
theorem create_accepts_empty_oid :
    (resourcednsrrCreate id wwwRecord
        (answering ⟨some 201, [[("ret_oid", JSON.str "")]], none⟩)).outcome =
      Outcome.returned none { wwwRecord with id := "" } := by
  decide

/-- C3, amended: for every configuration, status and decoded record array,
`resourcednsrrCreate` returns success and stores identifier `oid` if and only if the
status is 201 and the first record carries a string `ret_oid` equal to `oid`, empty or
not; in every other case, also when `ret_oid` is absent or not a string, it returns the
error naming the record, without a panic, and leaves the resource data unchanged. -/
theorem create_outcome (up : Char → Char) (d : DnsRR) (s : SOLIDserver) (status : Int)
    (buf : List Record) (err : Option String)
    (h : s.Request "post" "rest/dns_rr_add" (resourcednsrrCreateParameters up d) =
      ⟨some status, buf, err⟩) :
    (∀ oid, (resourcednsrrCreate up d s).outcome = Outcome.returned none { d with id := oid }
        ↔ status = 201 ∧ buf ≠ [] ∧ (first buf).index "ret_oid" = some (JSON.str oid))
      ∧ ((¬ ∃ oid, status = 201 ∧ buf ≠ [] ∧
            (first buf).index "ret_oid" = some (JSON.str oid)) →
          (resourcednsrrCreate up d s).outcome =
            Outcome.returned (some ("SOLIDServer - Unable to create RR record " ++ d.name))
              d) := by
  by_cases hc : ∃ v, buf ≠ [] ∧ (first buf).index "ret_oid" = some (JSON.str v)
  · obtain ⟨v, hne, hv⟩ := hc
    obtain ⟨m, rest, rfl⟩ := List.exists_cons_of_ne_nil hne
    have hev := create_eval_oid up d s status m rest err v h hv
    by_cases hs : status = 201
    · rw [if_pos hs] at hev
      refine ⟨fun oid => ⟨fun ho => ?_, fun ho => ?_⟩, fun hno => ?_⟩
      · rw [hev] at ho
        have hid : v = oid := by
          have := congrArg (fun o => match o with
            | Outcome.returned _ d => d.id
            | Outcome.panic _ => "") ho
          simpa using this
        exact ⟨hs, hne, hid ▸ hv⟩
      · have hvo : v = oid := by
          have := hv.symm.trans ho.2.2
          simpa using this
        rw [hev, hvo]
      · exact absurd ⟨v, hs, hne, hv⟩ hno
    · rw [if_neg hs] at hev
      refine ⟨fun oid => ⟨fun ho => ?_, fun ho => absurd ho.1 hs⟩, fun _ => hev⟩
      rw [hev] at ho
      simp at ho
  · have hev := create_eval_no_oid up d s status buf err h (fun oid ho => hc ⟨oid, ho⟩)
    refine ⟨fun oid => ⟨fun ho => ?_, fun ho => absurd ⟨oid, ho.2⟩ hc⟩, fun _ => hev⟩
    rw [hev] at ho
    simp at ho

/-- Scenario A for C3: status 201 and a first record whose `ret_oid` is `123` store the
identifier `123`. -/
theorem create_outcome_witness :
    (resourcednsrrCreate id wwwRecord
        (answering ⟨some 201, [[("ret_oid", JSON.str "123")]], none⟩)).outcome =
      Outcome.returned none { wwwRecord with id := "123" } :=
  ((create_outcome id wwwRecord (answering ⟨some 201, [[("ret_oid", JSON.str "123")]], none⟩)
      201 [[("ret_oid", JSON.str "123")]] none rfl).1 "123").2
    ⟨rfl, by simp, rfl⟩

theorem update_eval_oid (up : Char → Char) (d : DnsRR) (s : SOLIDserver) (status : Int)
    (m : Record) (rest : List Record) (err : Option String) (oid : String)
    (h : s.Request "put" "rest/dns_rr_add" (resourcednsrrUpdateParameters up d) =
      ⟨some status, m :: rest, err⟩)
    (hm : m.index "ret_oid" = some (JSON.str oid)) :
    (resourcednsrrUpdate up d s).outcome =
      if status = 200 then Outcome.returned none { d with id := oid }
      else Outcome.returned (some ("SOLIDServer - Unable to update RR : " ++ d.name)) d := by
  simp [resourcednsrrUpdate, h, hm, assertString]

theorem update_eval_no_oid (up : Char → Char) (d : DnsRR) (s : SOLIDserver) (status : Int)
    (buf : List Record) (err : Option String)
    (h : s.Request "put" "rest/dns_rr_add" (resourcednsrrUpdateParameters up d) =
      ⟨some status, buf, err⟩)
    (hm : ∀ oid, ¬ (buf ≠ [] ∧ (first buf).index "ret_oid" = some (JSON.str oid))) :
    (resourcednsrrUpdate up d s).outcome =
      Outcome.returned (some ("SOLIDServer - Unable to update RR : " ++ d.name)) d := by
  cases buf with
  | nil => simp [resourcednsrrUpdate, h]
  | cons m rest =>
    have hn : assertString (m.index "ret_oid") = none := by
      cases hx : assertString (m.index "ret_oid") with
      | none => rfl
      | some v => exact absurd ⟨by simp, assertString_eq_some.mp hx⟩ (hm v)
    simp [resourcednsrrUpdate, h, hn]

/-- C7: for every configuration, prior identifier, status and decoded record array, if
the status is 200 and the first record carries a string `ret_oid`, then
`resourcednsrrUpdate` returns success, the stored identifier becomes that `ret_oid` and
the attributes are kept; in every other case it returns an error and the identifier and
every attribute are unchanged. -/
theorem update_outcome (up : Char → Char) (d : DnsRR) (s : SOLIDserver) (status : Int)
    (buf : List Record) (err : Option String)
    (h : s.Request "put" "rest/dns_rr_add" (resourcednsrrUpdateParameters up d) =
      ⟨some status, buf, err⟩) :
    (∀ oid, status = 200 ∧ buf ≠ [] ∧ (first buf).index "ret_oid" = some (JSON.str oid) →
        (resourcednsrrUpdate up d s).outcome =
          Outcome.returned none
            { id := oid, dnsserver := d.dnsserver, name := d.name, type := d.type,
              value := d.value, ttl := d.ttl })
      ∧ ((¬ ∃ oid, status = 200 ∧ buf ≠ [] ∧
            (first buf).index "ret_oid" = some (JSON.str oid)) →
          (resourcednsrrUpdate up d s).outcome =
            Outcome.returned (some ("SOLIDServer - Unable to update RR : " ++ d.name)) d) := by
  constructor
  · rintro oid ⟨hs, hne, ho⟩
    obtain ⟨m, rest, rfl⟩ := List.exists_cons_of_ne_nil hne
    rw [update_eval_oid up d s status m rest err oid h ho, if_pos hs]
  · intro hno
    by_cases hc : ∃ v, buf ≠ [] ∧ (first buf).index "ret_oid" = some (JSON.str v)
    · obtain ⟨v, hne, hv⟩ := hc
      obtain ⟨m, rest, rfl⟩ := List.exists_cons_of_ne_nil hne
      have hs : ¬ status = 200 := fun hs => hno ⟨v, hs, hne, hv⟩
      rw [update_eval_oid up d s status m rest err v h hv, if_neg hs]
    · exact update_eval_no_oid up d s status buf err h (fun oid ho => hc ⟨oid, ho⟩)

/-- Both cases of C7 on the record stored under `123`: status 200 with `ret_oid` equal
to `456` re-stores the identifier as `456`; status 500 with an `errmsg` returns the
error and changes nothing. -/
theorem update_outcome_witness :
    (resourcednsrrUpdate id { wwwRecord with id := "123" }
        (answering ⟨some 200, [[("ret_oid", JSON.str "456")]], none⟩)).outcome =
        Outcome.returned none { wwwRecord with id := "456" }
      ∧ (resourcednsrrUpdate id { wwwRecord with id := "123" }
          (answering ⟨some 500, [[("errmsg", JSON.str "denied")]], none⟩)).outcome =
        Outcome.returned (some "SOLIDServer - Unable to update RR : www.example.com")
          { wwwRecord with id := "123" } :=
  ⟨(update_outcome id { wwwRecord with id := "123" }
      (answering ⟨some 200, [[("ret_oid", JSON.str "456")]], none⟩) 200
      [[("ret_oid", JSON.str "456")]] none rfl).1 "456" ⟨rfl, by simp, rfl⟩,
   (update_outcome id { wwwRecord with id := "123" }
      (answering ⟨some 500, [[("errmsg", JSON.str "denied")]], none⟩) 500
      [[("errmsg", JSON.str "denied")]] none rfl).2
      (fun hex => hex.elim fun _ hc => absurd hc.1 (by decide))⟩

/-! ## DNS resource record: read -/

/-- C2, as stated, fails: for the record stored under `999`, answered with status 200
and an empty array, `resourcednsrrRead` returns its error and the identifier is still
`999`. -/
theorem read_keeps_id_on_empty_body :
    (resourcednsrrRead { wwwRecord with id := "999" }
        (answering ⟨some 200, [], none⟩)).outcome =
      Outcome.returned (some "SOLIDServer - Unable to read RR : www.example.com")
        { wwwRecord with id := "999" } := by
  decide

/-- C2, amended: for every stored identifier and every response, `resourcednsrrRead`
returns its error and clears the identifier, keeping the attributes, when the decoded
array is not empty and the status is not 200; when the decoded array is empty it returns
the same error, whatever the status, and leaves the identifier and the attributes
unchanged. -/
theorem read_not_found (d : DnsRR) (s : SOLIDserver) (status : Int) (buf : List Record)
    (err : Option String)
    (h : s.Request "get" "rest/dns_rr_info" [("rr_id", [d.id])] = ⟨some status, buf, err⟩) :
    (buf ≠ [] → status ≠ 200 →
        (resourcednsrrRead d s).outcome =
          Outcome.returned (some ("SOLIDServer - Unable to read RR : " ++ d.name))
            { id := "", dnsserver := d.dnsserver, name := d.name, type := d.type,
              value := d.value, ttl := d.ttl })
      ∧ (buf = [] →
        (resourcednsrrRead d s).outcome =
          Outcome.returned (some ("SOLIDServer - Unable to read RR : " ++ d.name)) d) := by
  constructor
  · intro hne hs
    obtain ⟨m, rest, rfl⟩ := List.exists_cons_of_ne_nil hne
    simp [resourcednsrrRead, Values.Add, h, hs]
  · rintro rfl
    simp [resourcednsrrRead, Values.Add, h]

/-- Both cases of C2, amended, on the record stored under `999`: status 404 with an
`errmsg` record clears the identifier; status 404 with an empty array keeps it. -/
theorem read_not_found_witness :
    (resourcednsrrRead { wwwRecord with id := "999" }
        (answering ⟨some 404, [[("errmsg", JSON.str "no such record")]], none⟩)).outcome =
        Outcome.returned (some "SOLIDServer - Unable to read RR : www.example.com")
          { wwwRecord with id := "" }
      ∧ (resourcednsrrRead { wwwRecord with id := "999" }
          (answering ⟨some 404, [], none⟩)).outcome =
        Outcome.returned (some "SOLIDServer - Unable to read RR : www.example.com")
          { wwwRecord with id := "999" } :=
  ⟨(read_not_found { wwwRecord with id := "999" }
      (answering ⟨some 404, [[("errmsg", JSON.str "no such record")]], none⟩) 404
      [[("errmsg", JSON.str "no such record")]] none rfl).1 (by simp) (by decide),
   (read_not_found { wwwRecord with id := "999" } (answering ⟨some 404, [], none⟩) 404 []
      none rfl).2 rfl⟩

/-- C9 fails on the code: answered with status 200 and a first record that lacks
`rr_full_name`, `resourcednsrrRead` panics in the type assertion; answered with status
200 and a first record whose `ip6_name_type` is a number, `resourceip6aliasRead` panics
likewise. -/
theorem read_panics_on_missing_field :
    (resourcednsrrRead { wwwRecord with id := "123" }
        (answering ⟨some 200,
          [[("dns_name", JSON.str "ns.example.com"), ("rr_type", JSON.str "A"),
            ("value1", JSON.str "10.0.0.1"), ("ttl", JSON.str "3600")]], none⟩)).outcome =
        Outcome.panic notString
      ∧ (resourceip6aliasRead wwwAlias
          (answering ⟨some 200,
            [[("alias_name", JSON.str "www.example.com"),
              ("ip6_name_type", JSON.number 5)]], none⟩)).outcome =
        Outcome.panic notString := by
  constructor <;> rfl

/-! ## Delete -/

/-- C1, as stated, fails for the IPv6 alias: answered with status 500 and an empty
array, `resourceip6aliasDelete` returns an error and the identifier is still `123`. -/
theorem ip6alias_delete_keeps_id_on_failure :
    (resourceip6aliasDelete wwwAlias (answering ⟨some 500, [], none⟩)).outcome =
        Outcome.returned (some "Unable to delete IPv6 alias : www.example.com - CNAME\n")
          wwwAlias
      ∧ wwwAlias.id = "123" := by
  decide

theorem dns_delete_eval (d : DnsRR) (s : SOLIDserver) (status : Int) (buf : List Record)
    (err : Option String)
    (h : s.Request "delete" "rest/dns_rr_delete" [("rr_id", [d.id])] =
      ⟨some status, buf, err⟩) :
    (resourcednsrrDelete d s).outcome = Outcome.returned none { d with id := "" } := by
  simp [resourcednsrrDelete, Values.Add, h]

theorem ip6alias_delete_eval_success (a : Ip6Alias) (s : SOLIDserver) (status : Int)
    (buf : List Record)
    (h : s.Request "delete" "rest/ip6_alias_delete" [("ip6_name_id", [a.id])] =
      ⟨some status, buf, none⟩)
    (hs : status = 200 ∨ status = 204) :
    (resourceip6aliasDelete a s).outcome = Outcome.returned none { a with id := "" } := by
  rcases hs with rfl | rfl <;> simp [resourceip6aliasDelete, Values.Add, h]

theorem ip6alias_delete_eval_failure (a : Ip6Alias) (s : SOLIDserver) (status : Int)
    (buf : List Record)
    (h : s.Request "delete" "rest/ip6_alias_delete" [("ip6_name_id", [a.id])] =
      ⟨some status, buf, none⟩)
    (hs : ¬ (status = 200 ∨ status = 204)) :
    ∃ msg, (resourceip6aliasDelete a s).outcome = Outcome.returned (some msg) a := by
  have h200 : status ≠ 200 := fun e => hs (Or.inl e)
  have h204 : status ≠ 204 := fun e => hs (Or.inr e)
  cases buf with
  | nil => exact ⟨_, by simp [resourceip6aliasDelete, Values.Add, h, h200, h204]; rfl⟩
  | cons m rest =>
    cases hx : assertString (m.index "errmsg") with
    | none => exact ⟨_, by simp [resourceip6aliasDelete, Values.Add, h, h200, h204, hx]; rfl⟩
    | some v => exact ⟨_, by simp [resourceip6aliasDelete, Values.Add, h, h200, h204, hx]; rfl⟩

/-- C1, amended: `resourcednsrrDelete` leaves the empty identifier for every stored
identifier, status and decoded body. `resourceip6aliasDelete`, answered without a
transport error, leaves the empty identifier when the status is 200 or 204; for any
other status it returns an error and the identifier and attributes are unchanged. -/
theorem delete_identifier (d : DnsRR) (a : Ip6Alias) (s : SOLIDserver) (status : Int)
    (buf : List Record) (err : Option String)
    (hd : s.Request "delete" "rest/dns_rr_delete" [("rr_id", [d.id])] =
      ⟨some status, buf, err⟩)
    (ha : s.Request "delete" "rest/ip6_alias_delete" [("ip6_name_id", [a.id])] =
      ⟨some status, buf, none⟩) :
    (resourcednsrrDelete d s).outcome =
        Outcome.returned none
          { id := "", dnsserver := d.dnsserver, name := d.name, type := d.type,
            value := d.value, ttl := d.ttl }
      ∧ (status = 200 ∨ status = 204 →
          (resourceip6aliasDelete a s).outcome =
            Outcome.returned none
              { id := "", space := a.space, address := a.address, name := a.name,
                type := a.type })
      ∧ (¬ (status = 200 ∨ status = 204) →
          ∃ msg, (resourceip6aliasDelete a s).outcome = Outcome.returned (some msg) a) :=
  ⟨dns_delete_eval d s status buf err hd,
   ip6alias_delete_eval_success a s status buf ha,
   ip6alias_delete_eval_failure a s status buf ha⟩

/-- Scenario B for C1, amended: delete of identifier `123` answered with status 204 and
an empty body clears the identifier, for both entity types. -/
theorem delete_identifier_witness :
    (resourcednsrrDelete { wwwRecord with id := "123" }
        (answering ⟨some 204, [], none⟩)).outcome =
        Outcome.returned none { wwwRecord with id := "" }
      ∧ (resourceip6aliasDelete wwwAlias (answering ⟨some 204, [], none⟩)).outcome =
        Outcome.returned none { wwwAlias with id := "" } :=
  ⟨(delete_identifier { wwwRecord with id := "123" } wwwAlias
      (answering ⟨some 204, [], none⟩) 204 [] none rfl rfl).1,
   (delete_identifier { wwwRecord with id := "123" } wwwAlias
      (answering ⟨some 204, [], none⟩) 204 [] none rfl rfl).2.1 (Or.inr rfl)⟩

/-- C8, as stated, fails for the IPv6 alias: with a first delete answered 204 and a
second delete answered 404, neither with a transport error, the second call returns an
error. -/
theorem ip6alias_second_delete_errors :
    (resourceip6aliasDelete wwwAlias (answering ⟨some 204, [], none⟩)).outcome =
        Outcome.returned none { wwwAlias with id := "" }
      ∧ (resourceip6aliasDelete { wwwAlias with id := "" }
          (answering ⟨some 404, [], none⟩)).outcome =
        Outcome.returned (some "Unable to delete IPv6 alias : www.example.com - CNAME\n")
          { wwwAlias with id := "" } := by
  decide

/-- C8, amended: for every identifier and every pair of responses without a transport
error, `resourcednsrrDelete` followed by `resourcednsrrDelete` on the resulting data
returns no error from the second call and leaves the identifier empty; for
`resourceip6aliasDelete` the same holds for every pair whose second response has status
200 or 204, and for any other second status the second call returns an error and leaves
the data as the first call left it. -/
theorem delete_twice (d : DnsRR) (a : Ip6Alias) (s₁ s₂ : SOLIDserver) (st₁ st₂ : Int)
    (buf₁ buf₂ : List Record)
    (h₁ : ∀ method service parameters,
      s₁.Request method service parameters = ⟨some st₁, buf₁, none⟩)
    (h₂ : ∀ method service parameters,
      s₂.Request method service parameters = ⟨some st₂, buf₂, none⟩) :
    (∃ d₁, (resourcednsrrDelete d s₁).outcome = Outcome.returned none d₁
        ∧ ∃ d₂, (resourcednsrrDelete d₁ s₂).outcome = Outcome.returned none d₂ ∧ d₂.id = "")
      ∧ (st₂ = 200 ∨ st₂ = 204 →
          ∃ e₁ a₁, (resourceip6aliasDelete a s₁).outcome = Outcome.returned e₁ a₁
            ∧ ∃ a₂, (resourceip6aliasDelete a₁ s₂).outcome = Outcome.returned none a₂
              ∧ a₂.id = "")
      ∧ (¬ (st₂ = 200 ∨ st₂ = 204) →
          ∃ e₁ a₁, (resourceip6aliasDelete a s₁).outcome = Outcome.returned e₁ a₁
            ∧ ∃ msg, (resourceip6aliasDelete a₁ s₂).outcome =
              Outcome.returned (some msg) a₁) := by
  have hfirst : ∃ e₁ a₁, (resourceip6aliasDelete a s₁).outcome = Outcome.returned e₁ a₁ := by
    by_cases hs : st₁ = 200 ∨ st₁ = 204
    · exact ⟨_, _, ip6alias_delete_eval_success a s₁ st₁ buf₁ (h₁ _ _ _) hs⟩
    · obtain ⟨msg, hmsg⟩ := ip6alias_delete_eval_failure a s₁ st₁ buf₁ (h₁ _ _ _) hs
      exact ⟨_, _, hmsg⟩
  refine ⟨⟨_, dns_delete_eval d s₁ st₁ buf₁ none (h₁ _ _ _),
    _, dns_delete_eval _ s₂ st₂ buf₂ none (h₂ _ _ _), rfl⟩, fun hs => ?_, fun hs => ?_⟩
  · obtain ⟨e₁, a₁, he⟩ := hfirst
    exact ⟨e₁, a₁, he, _, ip6alias_delete_eval_success a₁ s₂ st₂ buf₂ (h₂ _ _ _) hs, rfl⟩
  · obtain ⟨e₁, a₁, he⟩ := hfirst
    exact ⟨e₁, a₁, he, ip6alias_delete_eval_failure a₁ s₂ st₂ buf₂ (h₂ _ _ _) hs⟩

/-- Delete twice for C8, amended, with both calls answered 204 and an empty body: the
second call returns no error and the identifier is empty, for both entity types. -/
theorem delete_twice_witness :
    (∃ d₁, (resourcednsrrDelete { wwwRecord with id := "123" }
          (answering ⟨some 204, [], none⟩)).outcome = Outcome.returned none d₁
        ∧ ∃ d₂, (resourcednsrrDelete d₁ (answering ⟨some 204, [], none⟩)).outcome =
            Outcome.returned none d₂ ∧ d₂.id = "")
      ∧ ∃ e₁ a₁, (resourceip6aliasDelete wwwAlias
            (answering ⟨some 204, [], none⟩)).outcome = Outcome.returned e₁ a₁
          ∧ ∃ a₂, (resourceip6aliasDelete a₁ (answering ⟨some 204, [], none⟩)).outcome =
              Outcome.returned none a₂ ∧ a₂.id = "" :=
  ⟨(delete_twice { wwwRecord with id := "123" } wwwAlias (answering ⟨some 204, [], none⟩)
      (answering ⟨some 204, [], none⟩) 204 204 [] [] (fun _ _ _ => rfl)
      (fun _ _ _ => rfl)).1,
   (delete_twice { wwwRecord with id := "123" } wwwAlias (answering ⟨some 204, [], none⟩)
      (answering ⟨some 204, [], none⟩) 204 204 [] [] (fun _ _ _ => rfl)
      (fun _ _ _ => rfl)).2.1 (Or.inr rfl)⟩

/-! ## Transport errors -/

/-- C6 fails on the code for `resourcednsrrDelete`, which discards the error returned by
`s.Request`: when the transport fails with a nil response the operation panics, and when
it fails with a response the operation returns no error and clears the identifier. -/
theorem dns_delete_discards_transport_error :
    (resourcednsrrDelete { wwwRecord with id := "123" }
        (answering ⟨none, [], some "connection refused"⟩)).outcome =
        Outcome.panic nilDereference
      ∧ (resourcednsrrDelete { wwwRecord with id := "123" }
          (answering ⟨some 502, [], some "bad gateway"⟩)).outcome =
        Outcome.returned none { wwwRecord with id := "" } := by
  decide

/-- The three IPv6 alias operations surface a transport error and leave the resource
data unchanged, whenever the resolvers succeed. -/
theorem ip6alias_surfaces_transport_error (a : Ip6Alias) (s : SOLIDserver)
    (siteID addressID e : String)
    (hsite : s.ipsiteidbyname a.space = Except.ok siteID)
    (haddr : s.ip6addressidbyip6 siteID a.address = Except.ok addressID)
    (herr : ∀ method service parameters, (s.Request method service parameters).err = some e) :
    (resourceip6aliasCreate a s).outcome = Outcome.returned (some e) a
      ∧ (resourceip6aliasRead a s).outcome = Outcome.returned (some e) a
      ∧ (resourceip6aliasDelete a s).outcome = Outcome.returned (some e) a := by
  refine ⟨?_, ?_, ?_⟩
  · simp [resourceip6aliasCreate, hsite, haddr, herr]
  · simp [resourceip6aliasRead, hsite, haddr, herr]
  · simp [resourceip6aliasDelete, herr]

/-! ## IPv6 alias: resolution chain -/

/-- C5: when `ipsiteidbyname` fails, `resourceip6aliasCreate` and `resourceip6aliasRead`
return exactly its error, their only call is that lookup (neither `ip6addressidbyip6`
nor `s.Request` is called) and the resource data is unchanged; when the space resolves
and `ip6addressidbyip6` fails, they return its error after the two lookups, send no
request and leave the resource data unchanged. -/
theorem resolution_short_circuits (a : Ip6Alias) (s : SOLIDserver) :
    (∀ e, s.ipsiteidbyname a.space = Except.error e →
        ((resourceip6aliasCreate a s).calls = [Call.ipsiteidbyname a.space]
          ∧ (resourceip6aliasCreate a s).outcome = Outcome.returned (some e) a)
        ∧ (resourceip6aliasRead a s).calls = [Call.ipsiteidbyname a.space]
          ∧ (resourceip6aliasRead a s).outcome = Outcome.returned (some e) a)
      ∧ (∀ siteID e, s.ipsiteidbyname a.space = Except.ok siteID →
          s.ip6addressidbyip6 siteID a.address = Except.error e →
          ((resourceip6aliasCreate a s).calls =
              [Call.ipsiteidbyname a.space, Call.ip6addressidbyip6 siteID a.address]
            ∧ (resourceip6aliasCreate a s).outcome = Outcome.returned (some e) a)
          ∧ (resourceip6aliasRead a s).calls =
              [Call.ipsiteidbyname a.space, Call.ip6addressidbyip6 siteID a.address]
            ∧ (resourceip6aliasRead a s).outcome = Outcome.returned (some e) a) := by
  refine ⟨fun e he => ?_, fun siteID e hs he => ?_⟩
  · simp [resourceip6aliasCreate, resourceip6aliasRead, he]
  · simp [resourceip6aliasCreate, resourceip6aliasRead, hs, he]

/-- Scenario D for C5: the space lookup finds nothing, so create fails with that error
after the single lookup; and with an address lookup that finds nothing, read fails
after the two lookups. -/
theorem resolution_short_circuits_witness :
    ((resourceip6aliasCreate { wwwAlias with id := "" } noSpace).calls =
          [Call.ipsiteidbyname "Local"]
        ∧ (resourceip6aliasCreate { wwwAlias with id := "" } noSpace).outcome =
          Outcome.returned (some "Unable to find IP space: Local")
            { wwwAlias with id := "" })
      ∧ (resourceip6aliasRead wwwAlias noAddress).calls =
          [Call.ipsiteidbyname "Local", Call.ip6addressidbyip6 "7" "2001:db8::1"]
        ∧ (resourceip6aliasRead wwwAlias noAddress).outcome =
          Outcome.returned (some "Unable to find IPv6 address: 2001:db8::1") wwwAlias :=
  ⟨((resolution_short_circuits { wwwAlias with id := "" } noSpace).1
      "Unable to find IP space: Local" rfl).1,
   ((resolution_short_circuits wwwAlias noAddress).2 "7"
      "Unable to find IPv6 address: 2001:db8::1" rfl rfl).2⟩

end Solidserver
